import Mathlib

/-!
Verification of the Hello_Solana SPL-token provisioning scripts
(`src/spl_token_operations_raw.ts`, `src/spl_token_operations_kit.ts`)
against their natural-language specification.

The scripts are sequential workflows over an RPC boundary.  We embed each
function shallowly: the boundary's responses become explicit parameters
(`Except`/`Option` values or response streams indexed by call number), and
each TypeScript function becomes a total Lean function returning the value
it produces together with an explicit trace of its observable effects
(attempt counts, backoff sleeps, thrown errors, process exits).
-/

namespace HelloSolana

/-- `pat` occurs as a contiguous sublist of `l`. -/
def occursIn (pat : List Char) : List Char → Bool
  | [] => pat.isEmpty
  | c :: rest => pat.isPrefixOf (c :: rest) || occursIn pat rest

/-- `error.message.includes(pat)` from the TypeScript source: `pat` occurs as a
substring of `msg`. -/
def msgIncludes (msg pat : String) : Bool :=
  occursIn pat.toList msg.toList

/-- The rate-limit classification used in the `catch` branch of
`airdropWithRetry` (identical in the raw and kit variants):
`error.message.includes("429") || error.message.includes("Too Many Requests")`. -/
def is429 (msg : String) : Bool :=
  msgIncludes msg "429" || msgIncludes msg "Too Many Requests"

/-- Outcome of one attempt of the wrapped airdrop operation, as the retry
loop's `try`/`catch` sees it: either a signature is returned, or an error
with a message is thrown. -/
inductive AttemptOutcome where
  | success (sig : String)
  | failure (msg : String)
  deriving DecidableEq, Repr

/-- How `airdropWithRetry` terminates: the function body either executes a
`return` (with `some` signature, or `none` when control falls off the end of
the `while` loop and the function returns `undefined`), or throws the last
error. -/
inductive RetryOutcome where
  | returned (sig : Option String)
  | threw (msg : String)
  deriving DecidableEq, Repr

/-- Observable behaviour of one `airdropWithRetry` call: how it terminated,
how many times the wrapped operation was attempted, and the backoff sleep
durations (milliseconds, in order) performed in the 429 branch. -/
structure RetryTrace where
  outcome : RetryOutcome
  attempts : Nat
  sleeps : List Nat
  deriving DecidableEq, Repr

/-- The `while (retries < maxRetries)` loop of `airdropWithRetry`
(`spl_token_operations_raw.ts:49-84`, `spl_token_operations_kit.ts:56-108`).
`op n` is the outcome of the attempt made while the mutable `retries`
variable equals `n`.  On failure the code increments `retries`; a
rate-limited message sleeps `Math.pow(2, retries) * 1000` ms and loops
(without ever consulting `maxRetries` in that branch); a non-rate-limited
message is rethrown once `retries >= maxRetries` and otherwise retried
immediately.  When the loop condition fails the function returns
`undefined`.  `fuel` makes the recursion structural; it starts at
`maxRetries` so that `fuel = maxRetries - retries` throughout, hence fuel
exhaustion and the loop condition failing coincide and both return
`undefined`. -/
def airdropLoop (op : Nat → AttemptOutcome) (maxRetries : Nat) :
    (fuel retries attempts : Nat) → (sleeps : List Nat) → RetryTrace
  | 0, _, attempts, sleeps => ⟨.returned none, attempts, sleeps⟩
  | fuel + 1, retries, attempts, sleeps =>
    if retries < maxRetries then
      match op retries with
      | .success sig => ⟨.returned (some sig), attempts + 1, sleeps⟩
      | .failure msg =>
        if is429 msg then
          airdropLoop op maxRetries fuel (retries + 1) (attempts + 1)
            (sleeps ++ [1000 * 2 ^ (retries + 1)])
        else if maxRetries ≤ retries + 1 then
          ⟨.threw msg, attempts + 1, sleeps⟩
        else
          airdropLoop op maxRetries fuel (retries + 1) (attempts + 1) sleeps
    else
      ⟨.returned none, attempts, sleeps⟩

/-- `airdropWithRetry(connection, publicKey, amount, maxRetries)`: run the
retry loop from `retries = 0`. -/
def airdropWithRetry (op : Nat → AttemptOutcome) (maxRetries : Nat := 3) :
    RetryTrace :=
  airdropLoop op maxRetries maxRetries 0 0 []

/-! ## Confirmation polling (kit variant, `spl_token_operations_kit.ts:66-85`) -/

/-- `confirmationStatus` values the RPC boundary can report for a signature. -/
inductive ConfStatus where
  | processed
  | confirmedS
  | finalizedS
  deriving DecidableEq, Repr

/-- Outcome of one `rpc.getSignatureStatuses([signature]).send()` call:
a transport error (caught by the inner `try`, the loop keeps waiting),
or a response whose `value[0]?.confirmationStatus` is absent or a status. -/
def PollResponse : Type := Except String (Option ConfStatus)

/-- The test
`status.value[0]?.confirmationStatus === "confirmed" || … === "finalized"`;
a thrown query error is caught and counts as not confirmed. -/
def pollSaysConfirmed (r : PollResponse) : Bool :=
  match r with
  | .ok (some .confirmedS) => true
  | .ok (some .finalizedS) => true
  | _ => false

/-- Observable behaviour of the confirmation-poll loop: whether a
confirmed/finalized status was seen, how many status queries were made, and
the wait durations (ms) performed before each query. -/
structure PollTrace where
  confirmed : Bool
  queries : Nat
  sleeps : List Nat
  deriving DecidableEq, Repr

/-- The `for (let i = 0; i < 30; i++)` confirmation loop: each iteration
waits 1000 ms, queries the signature status (`statuses i` is the `i`-th
response), and breaks as soon as the response says confirmed/finalized.
`fuel` counts the remaining iterations (30 at the top). -/
def confirmPollFrom (statuses : Nat → PollResponse) :
    (fuel i : Nat) → PollTrace
  | 0, _ => ⟨false, 0, []⟩
  | fuel + 1, i =>
    if pollSaysConfirmed (statuses i) then
      ⟨true, 1, [1000]⟩
    else
      let t := confirmPollFrom statuses fuel (i + 1)
      ⟨t.confirmed, t.queries + 1, 1000 :: t.sleeps⟩

/-- The whole poll loop of the kit `airdropWithRetry`: 30 iterations from
`i = 0`. -/
def confirmPoll (statuses : Nat → PollResponse) : PollTrace :=
  confirmPollFrom statuses 30 0

/-- How one attempt of the kit `airdropWithRetry` body can fail: the
`requestAirdrop` submission itself is rejected, or the poll bound is
exhausted without a terminal status and the code throws
`new Error("空投确认超时")`. -/
inductive KitAttemptError where
  | submission (msg : String)
  | confirmTimeout (msg : String)
  deriving DecidableEq, Repr

/-- Result of one kit airdrop attempt body. -/
inductive KitAttemptResult where
  | ok (sig : String)
  | err (e : KitAttemptError)
  deriving DecidableEq, Repr

/-- One attempt body of the kit `airdropWithRetry`
(`spl_token_operations_kit.ts:57-89`): request the airdrop; on rejection the
error propagates to the retry loop's `catch`; on acceptance poll for
confirmation and throw the fixed timeout error if the bound is reached
without a confirmed/finalized status. -/
def kitAirdropAttempt (request : Except String String)
    (statuses : Nat → PollResponse) : KitAttemptResult × PollTrace :=
  match request with
  | .error msg => (.err (.submission msg), ⟨false, 0, []⟩)
  | .ok sig =>
    let t := confirmPoll statuses
    if t.confirmed then (.ok sig, t)
    else (.err (.confirmTimeout "空投确认超时"), t)

/-! ## Transaction submission (kit variant, `spl_token_operations_kit.ts:147-189`) -/

/-- What the `sendAndConfirmFn` boundary call reports for a signed envelope:
success, the block-height-exceeded (blockhash expired) Solana error, or any
other error with its message. -/
inductive BoundaryOutcome where
  | ok
  | blockHeightExceeded (msg : String)
  | other (msg : String)
  deriving DecidableEq, Repr

/-- Terminal status of a `sendAndConfirmTransaction` call: confirmed with
the transaction's signature, expired (the distinct blockhash-expired error),
or failed with the boundary's error propagated unmodified. -/
inductive SubmitStatus where
  | CONFIRMED (sig : String)
  | EXPIRED (msg : String)
  | FAILED (msg : String)
  deriving DecidableEq, Repr

/-- The fixed message of the distinct error thrown on
`SOLANA_ERROR__BLOCK_HEIGHT_EXCEEDED`. -/
def blockhashExpiredMsg : String :=
  "Blockhash expired — transaction lifetime exceeded"

/-- `sendAndConfirmTransaction` (kit): submit the signed envelope; on
success return the signature; if the boundary reports the
block-height-exceeded condition, throw the distinct blockhash-expired
error; any other error is rethrown unmodified. -/
def sendAndConfirmTransaction (outcome : BoundaryOutcome) (sig : String) :
    SubmitStatus :=
  match outcome with
  | .ok => .CONFIRMED sig
  | .blockHeightExceeded _ => .EXPIRED blockhashExpiredMsg
  | .other msg => .FAILED msg

/-! ## Existence probe and balance reader (`spl_token_operations_kit.ts:114-142`) -/

/-- `accountExists(rpc, address)`: `getAccountInfo(address).send()` either
throws (any transport error → `false`) or yields a response whose `value`
is `null` (→ `false`) or a non-null account (→ `true`).  The account payload
is irrelevant, so it is a type parameter. -/
def accountExists {α : Type} (lookup : Except String (Option α)) : Bool :=
  match lookup with
  | .ok v => v.isSome
  | .error _ => false

/-- `getTokenBalance(rpc, tokenAccountAddress)`:
`getTokenAccountBalance(..).send()` either throws (→ `0`), or yields a
response whose `value` is absent (→ `0`) or carries the token amount, which
the code converts with `BigInt` (token amounts are unsigned, embedded as
`Nat`). -/
def getTokenBalance (lookup : Except String (Option Nat)) : Nat :=
  match lookup with
  | .ok (some amount) => amount
  | .ok none => 0
  | .error _ => 0

/-! ## Funding phase of `main` -/

/-- `0.01 * 1e9` in the source; the IEEE-double product rounds to exactly
`10^7`, so the lamport comparison `balance < 0.01 * 1e9` is exact. -/
def fundingThreshold : Nat := 10000000

/-- `10 * LAMPORTS_PER_SOL` (raw) / `BigInt(10 * 1_000_000_000)` (kit): the
airdrop amount requested by `main`. -/
def fundingAmount : Nat := 10000000000

/-- Observable behaviour of the funding step of `main`: the airdrop amount
requested (if the low-balance branch ran), the `process.exit` code (if
called), and whether the fatal error message and payer address were printed
first. -/
structure FundingPhase where
  requested : Option Nat
  exitCode : Option Nat
  printedFatalAndAddress : Bool
  deriving DecidableEq, Repr

/-- The funding step of the raw `main`
(`spl_token_operations_raw.ts:255-267`): if `balance < 0.01 * 1e9`, call
`airdropWithRetry(connection, payer.publicKey, 10 * LAMPORTS_PER_SOL)`; if
that throws, print the error details and payer address and
`process.exit(1)`; otherwise (and when the balance is at or above the
threshold) continue. -/
def rawFundingPhase (balance : Nat) (op : Nat → AttemptOutcome) :
    FundingPhase :=
  if balance < fundingThreshold then
    match (airdropWithRetry op 3).outcome with
    | .threw _ => ⟨some fundingAmount, some 1, true⟩
    | .returned _ => ⟨some fundingAmount, none, false⟩
  else
    ⟨none, none, false⟩

/-- Whether the kit `main` continues past the funding step to mint creation,
or exits. -/
inductive KitFundingResult where
  | proceeded
  | aborted (code : Nat)
  deriving DecidableEq, Repr

/-- The funding step of the kit `main`
(`spl_token_operations_kit.ts:239-258`): if `balance < 0.01 * 1e9`, call
`airdropWithRetry(rpc, payer.address, BigInt(10 * 1_000_000_000))`, then
re-read the balance; if the re-read balance is still below the threshold,
throw `"空投后余额仍然不足"`; any throw in the branch is caught, the error
and payer address are printed, and `process.exit(1)` runs. -/
def kitFundingPhase (balance : Nat) (op : Nat → AttemptOutcome)
    (rereadBalance : Nat) : KitFundingResult :=
  if balance < fundingThreshold then
    match (airdropWithRetry op 3).outcome with
    | .threw _ => .aborted 1
    | .returned _ =>
      if rereadBalance < fundingThreshold then .aborted 1 else .proceeded
  else
    .proceeded

/-! ## Associated token account creation -/

/-- Observable result of one get-or-create call for an associated token
account: the address handed back, whether a creation transaction was
submitted, the error thrown (if any), and the resulting ledger allocation
map. -/
structure AtaCall where
  address : Nat
  submittedCreate : Bool
  raised : Option String
  alloc : Nat → Bool

/-- Modelled from the spec: the boundary executing the *idempotent*
associated-token-account creation instruction
(`createAssociatedTokenAccountIdempotentInstruction`) allocates the account
if absent and succeeds as a no-op when it already exists — "creation
instructions for this account type are safe to attempt even if racing with
a prior creation, and must not be treated as fatal if the boundary reports
already exists". -/
def submitIdempotentCreate (alloc : Nat → Bool) (a : Nat) : Nat → Bool :=
  fun x => if x = a then true else alloc x

/-- Modelled from the spec: the boundary executing the plain (kit-variant)
associated-token-account creation instruction rejects the transaction when
the account already exists, and allocates it otherwise. -/
def submitCreate (alloc : Nat → Bool) (a : Nat) :
    Except String (Nat → Bool) :=
  if alloc a then .error "already exists: account already in use"
  else .ok (fun x => if x = a then true else alloc x)

/-- `getOrCreateAssociatedTokenAccountRaw(connection, payer, mint, owner)`
(`spl_token_operations_raw.ts:134-176`): derive the associated address (a
pure function `derive` of mint and owner); probe `getAccountInfo` — if it
answers non-null, return the address without submitting; if it answers null
*or throws* (`probeFault`), submit the idempotent creation instruction and
return the address. -/
def getOrCreateAssociatedTokenAccountRaw (alloc : Nat → Bool)
    (derive : Nat → Nat → Nat) (mint owner : Nat) (probeFault : Bool) :
    AtaCall :=
  let a := derive mint owner
  if !probeFault && alloc a then
    ⟨a, false, none, alloc⟩
  else
    ⟨a, true, none, submitIdempotentCreate alloc a⟩

/-- The ATA block of the kit `main` (`spl_token_operations_kit.ts:298-325`
and `363-394`): derive the associated address via `findAssociatedTokenPda`,
call `accountExists`, and only when it answers `false` submit the plain
creation instruction, rethrowing its failure. -/
def kitEnsureAta (alloc : Nat → Bool) (derive : Nat → Nat → Nat)
    (mint owner : Nat) (probeFault : Bool) : AtaCall :=
  let a := derive mint owner
  let probe : Except String (Option Unit) :=
    if probeFault then .error "transport error"
    else .ok (if alloc a then some () else none)
  if accountExists probe then
    ⟨a, false, none, alloc⟩
  else
    match submitCreate alloc a with
    | .ok alloc' => ⟨a, true, none, alloc'⟩
    | .error msg => ⟨a, true, some msg, alloc⟩

/-! ## Token ledger and the end-to-end workflow -/

/-- `1000 * 1e9` in the source (exact in IEEE doubles): the issuance
amount. -/
def mintAmountConst : Nat := 1000000000000

/-- `100 * 1e9` in the source (exact in IEEE doubles): the transfer
amount. -/
def transferAmountConst : Nat := 100000000000

/-- Modelled from the spec's boundary (§6, glossary): the state of one
asset-mint on the ledger — its decimals, total supply, the token balance of
every holder-account address, and which holder-account addresses are
allocated. -/
structure TokenLedger where
  decimals : Nat
  supply : Nat
  balances : Nat → Nat
  allocated : Nat → Bool

/-- `createMintRaw(connection, payer, mintAuthority, freezeAuthority,
decimals)` (`spl_token_operations_raw.ts:90-129`) on a confirming boundary:
a fresh mint with the given decimals, zero supply and no holder accounts. -/
def createMintRaw (decimals : Nat) : TokenLedger :=
  ⟨decimals, 0, fun _ => 0, fun _ => false⟩

/-- Modelled from the spec's glossary: issuance ("mint") increases the
asset's supply and credits the destination holder-account. -/
def ledgerMintTo (L : TokenLedger) (dest amount : Nat) : TokenLedger :=
  { L with
    supply := L.supply + amount
    balances := fun x =>
      if x = dest then L.balances dest + amount else L.balances x }

/-- Modelled from the spec's boundary: a transfer debits the source
holder-account and credits the destination, rejected by the ledger when the
source balance is insufficient. -/
def ledgerTransfer (L : TokenLedger) (src dst amount : Nat) :
    Except String TokenLedger :=
  if amount ≤ L.balances src then
    .ok { L with
          balances := fun x =>
            if x = src then L.balances src - amount
            else if x = dst then L.balances dst + amount
            else L.balances x }
  else
    .error "insufficient funds"

/-- The balance read-backs the raw `main` prints. -/
structure RunReport where
  mintDecimals : Nat
  payerAtaInitial : Nat
  mintedAmount : Nat
  payerAfterMint : Nat
  receiverAtaInitial : Nat
  transferredAmount : Nat
  finalPayer : Nat
  finalReceiver : Nat
  deriving DecidableEq, Repr

/-- Steps 3–8 of the raw `main` (`spl_token_operations_raw.ts:269-352`) on
a confirming boundary: create the mint with 9 decimals, get-or-create the
payer's associated account and read its balance, mint `1000 * 1e9` base
units to it, re-read, get-or-create the receiver's associated account and
read its balance, transfer `100 * 1e9` base units from payer to receiver,
and re-read both balances. -/
def rawTokenPhase (derive : Nat → Nat → Nat)
    (mintAddr payerPk receiverPk : Nat) : Except String RunReport :=
  let L0 := createMintRaw 9
  let c1 := getOrCreateAssociatedTokenAccountRaw L0.allocated derive
    mintAddr payerPk false
  let payerAta := c1.address
  let L1 := { L0 with allocated := c1.alloc }
  let payerAtaInitial := L1.balances payerAta
  let L2 := ledgerMintTo L1 payerAta mintAmountConst
  let payerAfterMint := L2.balances payerAta
  let c2 := getOrCreateAssociatedTokenAccountRaw L2.allocated derive
    mintAddr receiverPk false
  let receiverAta := c2.address
  let L3 := { L2 with allocated := c2.alloc }
  let receiverAtaInitial := L3.balances receiverAta
  match ledgerTransfer L3 payerAta receiverAta transferAmountConst with
  | .error msg => .error msg
  | .ok L4 =>
    .ok ⟨L0.decimals, payerAtaInitial, mintAmountConst, payerAfterMint,
      receiverAtaInitial, transferAmountConst,
      L4.balances payerAta, L4.balances receiverAta⟩

/-- The raw `main` (`spl_token_operations_raw.ts:239-352`): funding phase,
then — unless `process.exit(1)` ran — the token phase. -/
def rawMain (balance : Nat) (op : Nat → AttemptOutcome)
    (derive : Nat → Nat → Nat) (mintAddr payerPk receiverPk : Nat) :
    Except String (FundingPhase × RunReport) :=
  let fp := rawFundingPhase balance op
  match fp.exitCode with
  | some _ => .error "process exited with code 1"
  | none =>
    match rawTokenPhase derive mintAddr payerPk receiverPk with
    | .error msg => .error msg
    | .ok r => .ok (fp, r)

/-! ## Theorems -/

/-- C1: the claim says a wrapped operation that fails with a rate-limiting
error on every attempt makes `airdropWithRetry` (maxAttempts = 3) raise a
retry-exhausted error wrapping the last error after exactly 3 attempts.
The code does make exactly 3 attempts and never returns a signature, but
the 429 branch of the `catch` never consults `maxRetries`: after the third
rate-limited failure it sleeps 8 s and then falls off the `while` loop,
resolving with `undefined` instead of throwing — evaluated here at the
failing input. -/
theorem airdropWithRetry_always429_returns_undefined :
    airdropWithRetry (fun _ => .failure "429 Too Many Requests") 3 =
      ⟨.returned none, 3, [2000, 4000, 8000]⟩ := by decide

/-- C2: `sendAndConfirmTransaction` (kit) maps a boundary-reported
block-height-exceeded condition to the distinct blockhash-expired outcome
(never a confirmed one, and distinct from the generic failure kind), and
propagates every other submission error unmodified. -/
theorem sendAndConfirm_expired_distinct_and_others_unmodified :
    (∀ m sig, sendAndConfirmTransaction (.blockHeightExceeded m) sig =
      .EXPIRED blockhashExpiredMsg) ∧
    (∀ m sig s, sendAndConfirmTransaction (.blockHeightExceeded m) sig ≠
      .CONFIRMED s) ∧
    (∀ e f, SubmitStatus.EXPIRED e ≠ .FAILED f) ∧
    (∀ m sig, sendAndConfirmTransaction (.other m) sig = .FAILED m) := by
  refine ⟨fun m sig => rfl, fun m sig s h => ?_, fun e f h => ?_,
    fun m sig => rfl⟩
  · exact SubmitStatus.noConfusion h
  · exact SubmitStatus.noConfusion h

/-- C6: `accountExists` is a total Boolean function of the lookup outcome:
a transport error gives `false`, a null value gives `false`, and it is
`true` exactly when the boundary reports a non-null account value. -/
theorem accountExists_total_and_faithful :
    ∀ (α : Type) (m : String) (lookup : Except String (Option α)),
      accountExists (Except.error m : Except String (Option α)) = false ∧
      accountExists (Except.ok (none : Option α)) = false ∧
      (accountExists lookup = true ↔ ∃ v, lookup = .ok (some v)) := by
  intro α m lookup
  refine ⟨rfl, rfl, ?_⟩
  cases lookup with
  | error e => simp [accountExists]
  | ok v => cases v <;> simp [accountExists]

/-- C7: `getTokenBalance` is a total function of the lookup outcome into
the non-negative integers (`Nat`, the arbitrary-precision embedding of the
code's `BigInt`): a thrown lookup and a missing response value both give
`0`, and a reported amount is returned as is. -/
theorem getTokenBalance_total_zero_default :
    ∀ (a : Nat) (m : String) (lookup : Except String (Option Nat)),
      getTokenBalance (.ok (some a)) = a ∧
      getTokenBalance (.ok none) = 0 ∧
      getTokenBalance (.error m) = 0 ∧
      0 ≤ getTokenBalance lookup :=
  fun _ _ _ => ⟨rfl, rfl, rfl, Nat.zero_le _⟩

/-- When no failure of the wrapped operation is rate-limited, the retry
loop never enters the backoff branch, so it adds no sleeps. -/
theorem airdropLoop_sleeps_of_no429 (op : Nat → AttemptOutcome)
    (m : Nat) (h : ∀ n msg, op n = .failure msg → is429 msg = false) :
    ∀ (fuel retries attempts : Nat) (sleeps : List Nat),
      (airdropLoop op m fuel retries attempts sleeps).sleeps = sleeps := by
  intro fuel
  induction fuel with
  | zero => intro r a s; rfl
  | succ fuel ih =>
    intro r a s
    by_cases hr : r < m
    · cases hop : op r with
      | success sig => simp [airdropLoop, hr, hop]
      | failure msg =>
        have h429 := h r msg hop
        by_cases hm : m ≤ r + 1
        · simp [airdropLoop, hr, hop, h429, hm]
        · simp [airdropLoop, hr, hop, h429, hm, ih]
    · simp [airdropLoop, hr]

/-- C3: a wrapped operation that fails rate-limited on the first two
attempts and succeeds on the third makes `airdropWithRetry`
(maxAttempts = 3, with the source's hard-coded 1000 ms base delay) return
the third attempt's signature after exactly two backoff sleeps of
`1000 * 2^attempt` ms, i.e. 2000 ms then 4000 ms; and an operation none of
whose failures are rate-limited is retried with no backoff sleeps at
all. -/
theorem airdropWithRetry_backoff_schedule :
    (∀ (op : Nat → AttemptOutcome) (sig m0 m1 : String),
      op 0 = .failure m0 → is429 m0 = true →
      op 1 = .failure m1 → is429 m1 = true →
      op 2 = .success sig →
      airdropWithRetry op 3 = ⟨.returned (some sig), 3, [2000, 4000]⟩) ∧
    (∀ (op : Nat → AttemptOutcome) (maxRetries : Nat),
      (∀ n msg, op n = .failure msg → is429 msg = false) →
      (airdropWithRetry op maxRetries).sleeps = []) := by
  constructor
  · intro op sig m0 m1 h0 h4290 h1 h4291 h2
    simp [airdropWithRetry, airdropLoop, h0, h4290, h1, h4291, h2]
  · intro op maxRetries h
    exact airdropLoop_sleeps_of_no429 op maxRetries h maxRetries 0 0 []

/-- Witness for C3 at concrete inputs: two rate-limited failures then a
success, and a never-rate-limited failing operation. -/
theorem airdropWithRetry_backoff_schedule_witness :
    airdropWithRetry
      (fun n => if n < 2 then .failure "HTTP 429" else .success "sig") 3 =
      ⟨.returned (some "sig"), 3, [2000, 4000]⟩ ∧
    (airdropWithRetry (fun _ => .failure "socket hang up") 3).sleeps = [] := by
  constructor
  · exact airdropWithRetry_backoff_schedule.1 _ "sig" "HTTP 429" "HTTP 429"
      (by decide) (by decide) (by decide) (by decide) (by decide)
  · refine airdropWithRetry_backoff_schedule.2 _ 3 ?_
    intro n msg hmsg
    injection hmsg with hmsg'
    rw [← hmsg']
    decide

/-- C5: the raw `main` requests an airdrop of `10 * 10^9` lamports exactly
when the payer balance is strictly below the `0.01 * 10^9`-lamport
threshold, does nothing at or above it, and when `airdropWithRetry` throws
it prints the fatal error and the payer address and exits with code 1. -/
theorem rawFundingPhase_threshold_and_abort :
    ∀ (balance : Nat) (op : Nat → AttemptOutcome),
      ((rawFundingPhase balance op).requested =
        if balance < fundingThreshold then some fundingAmount else none) ∧
      (fundingThreshold ≤ balance →
        rawFundingPhase balance op = ⟨none, none, false⟩) ∧
      (∀ msg, balance < fundingThreshold →
        (airdropWithRetry op 3).outcome = .threw msg →
        rawFundingPhase balance op = ⟨some fundingAmount, some 1, true⟩) := by
  intro balance op
  refine ⟨?_, ?_, ?_⟩
  · by_cases hb : balance < fundingThreshold
    · simp only [rawFundingPhase, if_pos hb]
      cases (airdropWithRetry op 3).outcome <;> simp
    · simp [rawFundingPhase, hb]
  · intro hb
    have : ¬ balance < fundingThreshold := by omega
    simp [rawFundingPhase, this]
  · intro msg hb hthrew
    simp [rawFundingPhase, if_pos hb, hthrew]

/-- Witness for C5: balance 0.02 SOL skips funding; balance 0 with an
operation whose failures are never rate-limited exhausts the retries,
throws, and exits with code 1. -/
theorem rawFundingPhase_threshold_and_abort_witness :
    rawFundingPhase 20000000 (fun _ => .failure "boom") =
      ⟨none, none, false⟩ ∧
    rawFundingPhase 0 (fun _ => .failure "boom") =
      ⟨some fundingAmount, some 1, true⟩ :=
  ⟨(rawFundingPhase_threshold_and_abort 20000000 _).2.1 (by decide),
   (rawFundingPhase_threshold_and_abort 0 _).2.2 "boom" (by decide)
     (by decide)⟩

/-- C10: whenever the kit `main` takes the funding branch, it continues to
mint creation only if the re-read payer balance meets the threshold, and a
re-read balance still below the threshold makes it exit with code 1. -/
theorem kitFundingPhase_reread_guard :
    ∀ (balance : Nat) (op : Nat → AttemptOutcome) (reread : Nat),
      balance < fundingThreshold →
      (kitFundingPhase balance op reread = .proceeded →
        fundingThreshold ≤ reread) ∧
      (reread < fundingThreshold →
        kitFundingPhase balance op reread = .aborted 1) := by
  intro balance op reread hb
  simp only [kitFundingPhase, if_pos hb]
  cases (airdropWithRetry op 3).outcome with
  | threw m =>
    constructor
    · intro h; simp at h
    · intro _; rfl
  | returned s =>
    by_cases hr : reread < fundingThreshold
    · constructor
      · intro h; simp [hr] at h
      · intro _; simp [hr]
    · constructor
      · intro _; omega
      · intro h; exact absurd h hr

/-- Witness for C10: funding branch taken (balance 0), airdrop reported
successful, but the re-read balance 0 is still below the threshold — the
kit workflow aborts with exit code 1. -/
theorem kitFundingPhase_reread_guard_witness :
    kitFundingPhase 0 (fun _ => .success "sig") 0 = .aborted 1 :=
  (kitFundingPhase_reread_guard 0 _ 0 (by decide)).2 (by decide)

/-- A poll window none of whose responses say confirmed/finalized runs to
the bound: one query per remaining iteration, each preceded by a 1000 ms
wait, and no confirmation. -/
theorem confirmPollFrom_never_confirmed (statuses : Nat → PollResponse) :
    ∀ (fuel i : Nat),
      (∀ j, j < fuel → pollSaysConfirmed (statuses (i + j)) = false) →
      confirmPollFrom statuses fuel i =
        ⟨false, fuel, List.replicate fuel 1000⟩ := by
  intro fuel
  induction fuel with
  | zero => intro i _; rfl
  | succ fuel ih =>
    intro i h
    have h0 : pollSaysConfirmed (statuses i) = false := by
      have := h 0 (Nat.succ_pos fuel)
      simpa using this
    have hrest : ∀ j, j < fuel →
        pollSaysConfirmed (statuses (i + 1 + j)) = false := by
      intro j hj
      have := h (j + 1) (Nat.succ_lt_succ hj)
      have harith : i + (j + 1) = i + 1 + j := by omega
      rwa [harith] at this
    simp [confirmPollFrom, h0, ih (i + 1) hrest, List.replicate_succ]

/-- The poll loop never makes more queries than it has iterations left. -/
theorem confirmPollFrom_queries_le (statuses : Nat → PollResponse) :
    ∀ (fuel i : Nat), (confirmPollFrom statuses fuel i).queries ≤ fuel := by
  intro fuel
  induction fuel with
  | zero => intro i; exact Nat.le_refl 0
  | succ fuel ih =>
    intro i
    by_cases h : pollSaysConfirmed (statuses i) = true
    · simp [confirmPollFrom, h]
    · have := ih (i + 1)
      simp [confirmPollFrom, h]
      omega

/-- Every query of the poll loop is preceded by exactly one 1000 ms wait. -/
theorem confirmPollFrom_sleeps_fixed (statuses : Nat → PollResponse) :
    ∀ (fuel i : Nat),
      (confirmPollFrom statuses fuel i).sleeps =
        List.replicate (confirmPollFrom statuses fuel i).queries 1000 := by
  intro fuel
  induction fuel with
  | zero => intro i; rfl
  | succ fuel ih =>
    intro i
    by_cases h : pollSaysConfirmed (statuses i) = true
    · simp [confirmPollFrom, h]
    · simp only [confirmPollFrom, if_neg h]
      simp [ih (i + 1), List.replicate_succ]

/-- C4: the kit funding confirmation poll queries the signature status at a
fixed 1000 ms interval for at most 30 polls; when no polled status within
the bound is confirmed or finalized, the attempt fails with the fixed
timeout error, a kind distinct from a submission rejection. -/
theorem kit_confirmation_poll_bound_and_timeout :
    (∀ (statuses : Nat → PollResponse) (sig : String),
      (∀ i, i < 30 → pollSaysConfirmed (statuses i) = false) →
      kitAirdropAttempt (.ok sig) statuses =
        (.err (.confirmTimeout "空投确认超时"),
         ⟨false, 30, List.replicate 30 1000⟩)) ∧
    (∀ statuses, (confirmPoll statuses).queries ≤ 30) ∧
    (∀ statuses, (confirmPoll statuses).sleeps =
      List.replicate (confirmPoll statuses).queries 1000) ∧
    (∀ m msg, KitAttemptError.confirmTimeout m ≠ .submission msg) := by
  refine ⟨?_, ?_, ?_, ?_⟩
  · intro statuses sig h
    have hp : confirmPoll statuses = ⟨false, 30, List.replicate 30 1000⟩ :=
      confirmPollFrom_never_confirmed statuses 30 0
        (fun j hj => by simpa using h j hj)
    simp [kitAirdropAttempt, confirmPoll] at hp ⊢
    simp [hp]
  · intro statuses; exact confirmPollFrom_queries_le statuses 30 0
  · intro statuses; exact confirmPollFrom_sleeps_fixed statuses 30 0
  · intro m msg h; exact KitAttemptError.noConfusion h

/-- Witness for C4: a boundary that always answers "status unknown" makes
the kit airdrop attempt time out after 30 polls at 1000 ms each. -/
theorem kit_confirmation_poll_bound_and_timeout_witness :
    kitAirdropAttempt (.ok "sig") (fun _ => .ok none) =
      (.err (.confirmTimeout "空投确认超时"),
       ⟨false, 30, List.replicate 30 1000⟩) :=
  kit_confirmation_poll_bound_and_timeout.1 (fun _ => .ok none) "sig"
    (fun _ _ => rfl)

/-- Both branches of the raw get-or-create call hand back the derived
associated address. -/
theorem getOrCreateAta_address (alloc : Nat → Bool)
    (derive : Nat → Nat → Nat) (mint owner : Nat) (f : Bool) :
    (getOrCreateAssociatedTokenAccountRaw alloc derive mint owner f).address =
      derive mint owner := by
  simp only [getOrCreateAssociatedTokenAccountRaw]
  split <;> rfl

/-- Neither branch of the raw get-or-create call throws. -/
theorem getOrCreateAta_raised (alloc : Nat → Bool)
    (derive : Nat → Nat → Nat) (mint owner : Nat) (f : Bool) :
    (getOrCreateAssociatedTokenAccountRaw alloc derive mint owner f).raised =
      none := by
  simp only [getOrCreateAssociatedTokenAccountRaw]
  split <;> rfl

/-- After a raw get-or-create call, the derived address is allocated. -/
theorem getOrCreateAta_alloc_derived (alloc : Nat → Bool)
    (derive : Nat → Nat → Nat) (mint owner : Nat) (f : Bool) :
    (getOrCreateAssociatedTokenAccountRaw alloc derive mint owner f).alloc
      (derive mint owner) = true := by
  simp only [getOrCreateAssociatedTokenAccountRaw]
  by_cases hc : (!f && alloc (derive mint owner)) = true
  · rw [if_pos hc]
    simp only [Bool.and_eq_true] at hc
    exact hc.2
  · rw [if_neg hc]
    simp [submitIdempotentCreate]

/-- The raw get-or-create call leaves an allocation map that already has
the derived address unchanged (the create branch only ever submits the
idempotent instruction). -/
theorem getOrCreateAta_alloc_preserves (alloc : Nat → Bool)
    (derive : Nat → Nat → Nat) (mint owner : Nat) (f : Bool) (x : Nat)
    (h : alloc (derive mint owner) = true) :
    (getOrCreateAssociatedTokenAccountRaw alloc derive mint owner f).alloc x =
      alloc x := by
  simp only [getOrCreateAssociatedTokenAccountRaw]
  split
  · rfl
  · show submitIdempotentCreate alloc (derive mint owner) x = alloc x
    unfold submitIdempotentCreate
    by_cases hx : x = derive mint owner
    · rw [hx]; simp [h]
    · simp [hx]

/-- Both branches of the kit ATA block hand back the derived address. -/
theorem kitEnsureAta_address (alloc : Nat → Bool)
    (derive : Nat → Nat → Nat) (mint owner : Nat) (f : Bool) :
    (kitEnsureAta alloc derive mint owner f).address = derive mint owner := by
  by_cases hA : alloc (derive mint owner) = true <;>
    cases f <;>
      simp [kitEnsureAta, accountExists, submitCreate, hA]

/-- After a fault-free kit ATA block, the derived address is allocated. -/
theorem kitEnsureAta_alloc_derived (alloc : Nat → Bool)
    (derive : Nat → Nat → Nat) (mint owner : Nat) :
    (kitEnsureAta alloc derive mint owner false).alloc
      (derive mint owner) = true := by
  by_cases hA : alloc (derive mint owner) = true
  · simp [kitEnsureAta, accountExists, hA]
  · simp [kitEnsureAta, accountExists, hA, submitCreate]

/-- C8: invoking the holder-account creation step twice in sequence for the
same mint and owner is idempotent: both raw calls return the same derived
address, the second call does not raise, a fault-free second probe skips
submitting a creation transaction, and whatever the second call submits is
the idempotent instruction, leaving the allocation map unchanged; the kit
variant's probe-guarded block likewise returns the same address on the
second call without raising or submitting. -/
theorem ataCreation_idempotent (alloc : Nat → Bool)
    (derive : Nat → Nat → Nat) (mint owner : Nat) (f1 f2 : Bool) :
    ((getOrCreateAssociatedTokenAccountRaw alloc derive mint owner
        f1).address = derive mint owner) ∧
    ((getOrCreateAssociatedTokenAccountRaw
        (getOrCreateAssociatedTokenAccountRaw alloc derive mint owner
          f1).alloc derive mint owner f2).address =
      (getOrCreateAssociatedTokenAccountRaw alloc derive mint owner
        f1).address) ∧
    ((getOrCreateAssociatedTokenAccountRaw
        (getOrCreateAssociatedTokenAccountRaw alloc derive mint owner
          f1).alloc derive mint owner f2).raised = none) ∧
    ((getOrCreateAssociatedTokenAccountRaw
        (getOrCreateAssociatedTokenAccountRaw alloc derive mint owner
          f1).alloc derive mint owner false).submittedCreate = false) ∧
    (∀ x,
      (getOrCreateAssociatedTokenAccountRaw
        (getOrCreateAssociatedTokenAccountRaw alloc derive mint owner
          f1).alloc derive mint owner f2).alloc x =
      (getOrCreateAssociatedTokenAccountRaw alloc derive mint owner
        f1).alloc x) ∧
    ((kitEnsureAta (kitEnsureAta alloc derive mint owner false).alloc
        derive mint owner false).address =
      (kitEnsureAta alloc derive mint owner false).address) ∧
    ((kitEnsureAta (kitEnsureAta alloc derive mint owner false).alloc
        derive mint owner false).raised = none) ∧
    ((kitEnsureAta (kitEnsureAta alloc derive mint owner false).alloc
        derive mint owner false).submittedCreate = false) := by
  set r1 := getOrCreateAssociatedTokenAccountRaw alloc derive mint owner f1
    with hr1
  set k1 := kitEnsureAta alloc derive mint owner false with hk1
  have hr1a : r1.alloc (derive mint owner) = true := by
    rw [hr1]; exact getOrCreateAta_alloc_derived alloc derive mint owner f1
  have hk1a : k1.alloc (derive mint owner) = true := by
    rw [hk1]; exact kitEnsureAta_alloc_derived alloc derive mint owner
  refine ⟨?_, ?_, getOrCreateAta_raised .., ?_, ?_, ?_, ?_, ?_⟩
  · rw [hr1]; exact getOrCreateAta_address alloc derive mint owner f1
  · rw [getOrCreateAta_address, hr1, getOrCreateAta_address]
  · simp [getOrCreateAssociatedTokenAccountRaw, hr1a]
  · intro x; exact getOrCreateAta_alloc_preserves r1.alloc derive mint owner
      f2 x hr1a
  · rw [kitEnsureAta_address, hk1, kitEnsureAta_address]
  · simp [kitEnsureAta, accountExists, hk1a]
  · simp [kitEnsureAta, accountExists, hk1a]

/-- C9: with the payer balance at or above the funding threshold and a
confirming boundary, the raw end-to-end run skips funding, creates the mint
with 9 decimal places, finds the payer's fresh holder-account at balance 0,
issues exactly 1000·10^9 base units to it, finds the receiver's fresh
holder-account at balance 0, transfers exactly 100·10^9 base units, and the
final re-read balances are 900·10^9 for the payer and 100·10^9 for the
receiver. -/
theorem rawMain_endToEnd (balance : Nat) (op : Nat → AttemptOutcome)
    (derive : Nat → Nat → Nat) (mintAddr payerPk receiverPk : Nat)
    (hb : fundingThreshold ≤ balance)
    (hne : derive mintAddr payerPk ≠ derive mintAddr receiverPk) :
    rawMain balance op derive mintAddr payerPk receiverPk =
      .ok (⟨none, none, false⟩,
        ⟨9, 0, mintAmountConst, mintAmountConst, 0, transferAmountConst,
         900000000000, 100000000000⟩) := by
  have hb' : ¬ balance < fundingThreshold := by omega
  have hne' : ¬ (derive mintAddr receiverPk = derive mintAddr payerPk) :=
    fun h => hne h.symm
  simp only [rawMain, rawFundingPhase, if_neg hb']
  simp only [rawTokenPhase, createMintRaw, getOrCreateAssociatedTokenAccountRaw,
    submitIdempotentCreate, ledgerMintTo, ledgerTransfer, mintAmountConst,
    transferAmountConst]
  norm_num [submitIdempotentCreate, hne']

/-- Witness for C9: balance 0.02 SOL (above the threshold), distinct
derived payer and receiver holder-account addresses. -/
theorem rawMain_endToEnd_witness :
    rawMain 20000000 (fun _ => .success "sig") (fun m o => m * 2 + o)
      0 0 1 =
      .ok (⟨none, none, false⟩,
        ⟨9, 0, mintAmountConst, mintAmountConst, 0, transferAmountConst,
         900000000000, 100000000000⟩) :=
  rawMain_endToEnd 20000000 _ _ 0 0 1 (by decide) (by decide)

end HelloSolana
